import Mathlib

/-!
Verification of the orchestration pipeline of `execute.py` (NewAiAgent).

The program turns a free-text description into an architecture proposal
(a JSON value returned by a generative text service), asks the user for
approval, then walks the `file_scaffolding` field of the proposal, creating
directories under the fixed output root `Output` and requesting content
for each collected `(folder, filename)` pair, which it writes to disk.

The shallow embedding below models:
  * parsed JSON values (`Json`) and Python truthiness (`pyTruthy`);
  * the local filesystem as a set of directory paths plus a map from
    file paths to contents (`FS`), with `os.path.join`, `os.makedirs`
    and `open(path, "w")` semantics (`osJoin`, `makedirs`, `tryWrite`);
  * the generative service as an oracle `String → String → Option String`
    giving, for each `(folder, filename)` request, the returned text
    (`none` models a request that raised, which the code catches and
    turns into `None`);
  * the functions `create_folder_or_file`, `save_file_to_output`,
    `generate_software_files`, `get_user_approval`,
    `ask_chatgpt_for_architecture` and `main` of `execute.py`,
    with uncaught Python exceptions modelled by `Except.error` carrying
    the state at the point of the raise.
-/

namespace NewAiAgent

/-- A JSON value, as returned by `json.loads`. The fields of an `obj`
correspond to a Python `dict` produced by the parser, so keys are
distinct in every value that models an actual run. -/
inductive Json where
  | null
  | bool (b : Bool)
  | num (n : Int)
  | str (s : String)
  | arr (elems : List Json)
  | obj (fields : List (String × Json))

/-! The embedding implements the string operations the program uses
(`in`, `strip`, `lower`, `rstrip`, `os.path` functions) structurally on
`String.data`, so that every definition evaluates inside the kernel. -/

/-- Whether the string is empty. -/
def strEmpty (s : String) : Bool := s.data.isEmpty

/-- Python `c in s` for a single character (Python substring test of `"."`). -/
def strContains (s : String) (c : Char) : Bool := s.data.contains c

/-- Whether the string starts with the character `c`. -/
def strStartsWith (s : String) (c : Char) : Bool :=
  match s.data with
  | [] => false
  | a :: _ => a == c

/-- Whether the string ends with the character `c`. -/
def strEndsWith (s : String) (c : Char) : Bool :=
  match s.data.getLast? with
  | none => false
  | some a => a == c

/-- Python truthiness (`bool(v)`) of a parsed JSON value: `None`, `False`,
`0`, `""`, `[]` and `{}` are falsy, everything else is truthy. -/
def pyTruthy : Json → Bool
  | .null => false
  | .bool b => b
  | .num n => n != 0
  | .str s => !strEmpty s
  | .arr elems => !elems.isEmpty
  | .obj fields => !fields.isEmpty

/-- Python `d.get(key, default)` on a parsed JSON object. -/
def dictGet (fields : List (String × Json)) (key : String) (dflt : Json) : Json :=
  match fields.find? (fun kv => kv.1 == key) with
  | some kv => kv.2
  | none => dflt

/-- Python `os.path.join(a, b)` for the POSIX paths this program builds:
an absolute `b` replaces `a`; otherwise the two segments are glued with
exactly one separator (`os.path.join("Output", "") = "Output/"`). -/
def osJoin (a b : String) : String :=
  if strStartsWith b '/' then b
  else if strEmpty a then b
  else if strEndsWith a '/' then a ++ b
  else a ++ "/" ++ b

/-- The character lists between the slashes of a path (the components
`p.split("/")` yields; an empty path gives one empty component). -/
def splitSlash : List Char → List (List Char)
  | [] => [[]]
  | c :: rest =>
    match splitSlash rest with
    | [] => [[c]]
    | r :: rs => if c == '/' then [] :: r :: rs else (c :: r) :: rs

/-- Glue path components back together with single slashes. -/
def joinSlash : List (List Char) → List Char
  | [] => []
  | [p] => p
  | p :: q :: rest => p ++ '/' :: joinSlash (q :: rest)

/-- All component-wise prefixes of a path, outermost first:
`pathPrefixes "Output/a/b" = ["Output", "Output/a", "Output/a/b"]`.
These are the directories `os.makedirs` creates. -/
def pathPrefixes (p : String) : List String :=
  let parts := splitSlash p.data
  (List.range parts.length).map (fun i => ⟨joinSlash (parts.take (i + 1))⟩)

/-- Python `os.path.dirname`: the path up to (excluding) the final separator. -/
def dirname (p : String) : String :=
  ⟨joinSlash ((splitSlash p.data).dropLast)⟩

/-- The local filesystem: the set of existing directories, and the
contents of existing regular files (newest entry first). -/
structure FS where
  dirs : List String
  files : List (String × String)
deriving DecidableEq

def emptyFS : FS := ⟨[], []⟩

/-- Whether `p` exists as a directory. -/
def FS.isDir (fs : FS) (p : String) : Bool := fs.dirs.contains p

/-- Whether `p` exists as a regular file. -/
def FS.isFile (fs : FS) (p : String) : Bool := fs.files.any (fun e => e.1 == p)

/-- Python `os.path.exists(p)`: true for directories and files alike. -/
def FS.pathExists (fs : FS) (p : String) : Bool := fs.isDir p || fs.isFile p

/-- The current content of the file at `p`, if one exists. -/
def FS.lookup (fs : FS) (p : String) : Option String :=
  (fs.files.find? (fun e => e.1 == p)).map (fun e => e.2)

/-- Write (create or truncate-and-overwrite) the file at `p`. -/
def FS.write (fs : FS) (p c : String) : FS :=
  { fs with files := (p, c) :: fs.files.filter (fun e => e.1 != p) }

/-- Python `os.makedirs(p)`: creates `p` and every missing ancestor directory.
Returns `none` (the call raises) when `p` already exists — as a directory
or as a file — or when an ancestor component exists as a regular file. -/
def makedirs (fs : FS) (p : String) : Option FS :=
  let pres := pathPrefixes p
  if pres.any (fun q => fs.isFile q) || fs.dirs.contains p then none
  else some { fs with dirs := fs.dirs ++ pres.filter (fun q => !fs.dirs.contains q) }

/-- Python `open(p, "w")` followed by a write: succeeds when the parent directory
exists (or `p` has no directory component) and `p` is not itself a
directory; otherwise the OS raises, which `save_file_to_output` catches. -/
def tryWrite (fs : FS) (p c : String) : Option FS :=
  if (fs.isDir (dirname p) || dirname p == "") && !fs.isDir p then some (fs.write p c)
  else none

/-- The fixed output root (`OUTPUT_PATH` in `execute.py`). -/
def OUTPUT_PATH : String := "Output"

/-- One status line printed by the program. (The exact console text is
presentation only; each constructor stands for one `print` site.) -/
inductive Msg where
  | couldNotRetrieveArchitecture
  | notApproved
  | approved
  | requestingFile (folder filename : String)
  | failedToRetrieve (filename : String)
  | savedFile (path : String)
  | errorSavingFile (path : String)
  | allDone
deriving DecidableEq

/-- The generative service for per-file content requests:
`(folder, filename) ↦ some text` for a successful round trip, `none` when
the request raises (`ask_chatgpt_for_file_content` catches the exception
and returns `None`). -/
def Oracle : Type := String → String → Option String

/-- Run state threaded through the pipeline: the filesystem, the list of
per-file content requests issued so far (in order), and the status lines
printed so far. -/
structure St where
  fs : FS
  calls : List (String × String)
  log : List Msg
deriving DecidableEq

def log (st : St) (m : Msg) : St := { st with log := st.log ++ [m] }

/-- Function `ask_chatgpt_for_file_content(folder, filename)`: issues one service
request and returns its text, or `None` on failure (exception caught). -/
def ask_chatgpt_for_file_content (o : Oracle) (st : St) (folder filename : String) :
    St × Option String :=
  ({ st with calls := st.calls ++ [(folder, filename)] }, o folder filename)

/-- Python truthiness of the value `ask_chatgpt_for_file_content` returns:
`None` and the empty string are falsy (`if file_content:`). -/
def optTruthy : Option String → Bool
  | none => false
  | some s => !strEmpty s

/-- Bound on the mutual recursion between `create_folder_or_file` and
`save_file_to_output`. The recursive call chain is
`create(path, item)` → `save(path, item, ·)` → `create("Output", path)`,
and every call the program makes has `path = "Output"`, which contains no
dot, so the chain stops after at most five frames; `8` is never reached. -/
def FUEL : Nat := 8

/-- A pending call in the mutual recursion between `create_folder_or_file`
and `save_file_to_output` of `execute.py`. -/
inductive Call where
  | create (st : St) (path item : String)
  | save (st : St) (folder filename content : String)

/-- The bodies of `create_folder_or_file(path, item)` and
`save_file_to_output(folder, filename, content)` from `execute.py`, merged
into one fuel-indexed worker so that the recursion is structural.

`create`: if the target path already exists, do nothing; otherwise a
dotted `item` is treated as a file (content is requested from the service
and saved), a dotless one as a folder (`os.makedirs`).

`save`: ensure `Output/<folder>` exists via `create_folder_or_file`
(outside the `try`, so its exceptions propagate), then write
`Output/<folder>/<filename>`, catching any write error.

An `Except.error` is an uncaught Python exception (only `os.makedirs`
raising), carrying the state at the raise. -/
def call_step (o : Oracle) : Nat → Call → Except St St
  | 0, .create st _ _ => .error st
  | 0, .save st _ _ _ => .error st
  | fuel + 1, .create st path item =>
    let full_item := if strEmpty item then path else osJoin path item
    if st.fs.pathExists full_item then .ok st
    else if strContains item '.' then
      let r := ask_chatgpt_for_file_content o st path item
      if optTruthy r.2 then
        call_step o fuel (.save r.1 path item (r.2.getD ""))
      else
        .ok (log r.1 (.failedToRetrieve item))
    else
      match makedirs st.fs full_item with
      | some fs => .ok { st with fs := fs }
      | none => .error st
  | fuel + 1, .save st folder filename content => do
    let output_folder := osJoin OUTPUT_PATH folder
    let st ← call_step o fuel (.create st OUTPUT_PATH folder)
    let file_path := osJoin output_folder filename
    match tryWrite st.fs file_path content with
    | some fs => .ok (log { st with fs := fs } (.savedFile file_path))
    | none => .ok (log st (.errorSavingFile file_path))

/-- Function `create_folder_or_file(path, item)` from `execute.py` (see `call_step`). -/
def create_folder_or_file (o : Oracle) (fuel : Nat) (st : St) (path item : String) :
    Except St St :=
  call_step o fuel (.create st path item)

/-- Function `save_file_to_output(folder, filename, content)` from `execute.py`
(see `call_step`). -/
def save_file_to_output (o : Oracle) (fuel : Nat) (st : St)
    (folder filename content : String) : Except St St :=
  call_step o fuel (.save st folder filename content)

/-- Python `f.rstrip("/")`: removes every trailing slash. -/
def rstripSlash (s : String) : String :=
  ⟨(s.data.reverse.dropWhile (fun c => c == '/')).reverse⟩

/-- The elements of a JSON array, provided every one is a string; `none`
models the `AttributeError` that `f.rstrip("/")` raises on a non-string
element (uncaught, so it aborts the run). -/
def asStrings : List Json → Option (List String)
  | [] => some []
  | .str s :: rest => (asStrings rest).map (fun ss => s :: ss)
  | _ => none

/-- The first loop of `generate_software_files` over
`file_scaffolding.items()`, restricted to a value that is an inner
mapping: each inner key is passed to `create_folder_or_file` with the
output root as `path` (its value, bound to `comments`, is ignored). -/
def create_inner_folders (o : Oracle) : St → List (String × Json) → Except St St
  | st, [] => .ok st
  | st, (folder, _) :: rest => do
    let st ← create_folder_or_file o FUEL st OUTPUT_PATH folder
    create_inner_folders o st rest

/-- The first loop of `generate_software_files` for a mapping-shaped
scaffold: for each `(folder, files)` item, create the folder; a list
value contributes `(folder, f.rstrip("/"))` pairs to `file_list`, an
inner mapping contributes only folder creations, anything else nothing. -/
def walk_scaffold_dict (o : Oracle) :
    St → List (String × Json) → Except St (St × List (String × String))
  | st, [] => .ok (st, [])
  | st, (folder, files) :: rest => do
    let st ← create_folder_or_file o FUEL st OUTPUT_PATH folder
    match files with
    | .arr items =>
      match asStrings items with
      | none => .error st
      | some names => do
        let res ← walk_scaffold_dict o st rest
        .ok (res.1, names.map (fun f => (folder, rstripSlash f)) ++ res.2)
    | .obj inner => do
      let st ← create_inner_folders o st inner
      walk_scaffold_dict o st rest
    | _ => walk_scaffold_dict o st rest

/-- The second loop of `generate_software_files`: for each
`(folder, filename)` pair, request the content and save it when truthy,
otherwise report the failure and continue with the next file. -/
def generate_each_file (o : Oracle) : St → List (String × String) → Except St St
  | st, [] => .ok st
  | st, (folder, filename) :: rest => do
    let st := log st (.requestingFile folder filename)
    let r := ask_chatgpt_for_file_content o st folder filename
    let st ← if optTruthy r.2 then
        save_file_to_output o FUEL r.1 folder filename (r.2.getD "")
      else
        .ok (log r.1 (.failedToRetrieve filename))
    generate_each_file o st rest

/-- Function `generate_software_files()` from `execute.py`: create the output root,
normalize `architecture_data.get("file_scaffolding", {})` according to its
runtime shape into folder creations plus `file_list`, then generate each
collected file. -/
def generate_software_files (o : Oracle) (archFields : List (String × Json)) (st : St) :
    Except St St := do
  let st ← create_folder_or_file o FUEL st OUTPUT_PATH ""
  match dictGet archFields "file_scaffolding" (.obj []) with
  | .obj entries => do
    let res ← walk_scaffold_dict o st entries
    generate_each_file o res.1 res.2
  | .arr items =>
    match asStrings items with
    | none => .error st
    | some names =>
      generate_each_file o st (names.map (fun f => ("", rstripSlash f)))
  | _ => generate_each_file o st []

/-- The generation sequence (`file_list`) determined by a scaffold value:
pairs collected from a mapping in item order (list values only, trailing
slashes stripped), or from a flat sequence with the folder name empty.
Arrays with non-string elements abort the run before a sequence is
consumed; here they contribute nothing. -/
def file_list : Json → List (String × String)
  | .obj entries =>
    entries.flatMap (fun e =>
      match e.2 with
      | .arr items => ((asStrings items).getD []).map (fun f => (e.1, rstripSlash f))
      | _ => [])
  | .arr items => ((asStrings items).getD []).map (fun f => ("", rstripSlash f))
  | _ => []

/-- A character that Python `str.strip()` removes from either end. -/
def pyIsSpace (c : Char) : Bool :=
  c == ' ' || c == '\t' || c == '\n' || c == '\r' || c == '\x0b' || c == '\x0c'

/-- Python `s.strip()`: drop whitespace from both ends. -/
def pyStrip (s : String) : String :=
  ⟨((s.data.dropWhile pyIsSpace).reverse.dropWhile pyIsSpace).reverse⟩

/-- Python `s.lower()` on the ASCII range (the inputs this gate compares
against are ASCII tokens). -/
def pyLower (s : String) : String :=
  ⟨s.data.map (fun c =>
    if 'A' ≤ c && c ≤ 'Z' then Char.ofNat (c.toNat + 32) else c)⟩

/-- Function `get_user_approval()` on a (finite prefix of the) stream of console
inputs: the first input whose stripped, lowercased form is `yes`/`y`
returns `true`, `no`/`n` returns `false`; any other input re-prompts.
`none` means the supplied inputs were exhausted without a decision. -/
def get_user_approval : List String → Option Bool
  | [] => none
  | i :: rest =>
    let user_input := pyLower (pyStrip i)
    if user_input = "yes" || user_input = "y" then some true
    else if user_input = "no" || user_input = "n" then some false
    else get_user_approval rest

/-- Outcome of the architecture request as seen by
`ask_chatgpt_for_architecture`: the gateway call raised (`RequestError`),
`json.loads` raised (`ParseError`), or a JSON value was parsed. -/
inductive ArchResponse where
  | requestError
  | parseError
  | parsed (v : Json)

/-- Function `ask_chatgpt_for_architecture(...)`: both failure modes are caught by
the single `except`, which prints the error and returns `None`. -/
def ask_chatgpt_for_architecture : ArchResponse → Option Json
  | .requestError => none
  | .parseError => none
  | .parsed v => some v

/-- How one run of `main()` ended. -/
inductive RunOutcome where
  | abortedNoArch
  | blockedAtApproval
  | disapproved
  | crashed
  | completed
deriving DecidableEq

/-- Function `main()` from `execute.py`: obtain the architecture, abort when it is
falsy, display it (console only — but a truthy non-dict value makes
`display_architecture_proposal` raise `AttributeError`), gate on approval,
then generate the files. -/
def main_run (resp : ArchResponse) (inputs : List String) (o : Oracle) (fs : FS) :
    RunOutcome × St :=
  let st0 : St := ⟨fs, [], []⟩
  match ask_chatgpt_for_architecture resp with
  | none => (.abortedNoArch, log st0 .couldNotRetrieveArchitecture)
  | some v =>
    if pyTruthy v then
      match v with
      | .obj kvs =>
        match get_user_approval inputs with
        | none => (.blockedAtApproval, st0)
        | some false => (.disapproved, log st0 .notApproved)
        | some true =>
          match generate_software_files o kvs (log st0 .approved) with
          | .ok st => (.completed, log st .allDone)
          | .error st => (.crashed, st)
      | _ => (.crashed, st0)
    else (.abortedNoArch, log st0 .couldNotRetrieveArchitecture)

/-! ### Concrete values used by several claims -/

/-- The example scaffold named in the spec: `{"src": ["main.py", "utils.py"], "docs": []}`. -/
def scaffoldExample : Json :=
  .obj [("src", .arr [.str "main.py", .str "utils.py"]), ("docs", .arr [])]

/-- An architecture proposal whose `file_scaffolding` is `scaffoldExample`. -/
def archExample : Json := .obj [("file_scaffolding", scaffoldExample)]

/-- The three-file scaffold `{"src": ["a.py", "b.py", "c.py"]}` used by C6. -/
def archThree : Json :=
  .obj [("file_scaffolding", .obj [("src", .arr [.str "a.py", .str "b.py", .str "c.py"])])]

/-- The final state of a call, whether it returned or raised. -/
def resultState : Except St St → St
  | .ok st => st
  | .error st => st

/-! ### Claims -/

/-- Claim **C2.** For the scaffold input `{"src": ["main.py", "utils.py"], "docs": []}`,
the Walker (the first loop of `generate_software_files`, entered with the
output root already created) creates the directories `Output/src` and
`Output/docs`, and the generation sequence it collects is exactly
`("src", "main.py")` followed by `("src", "utils.py")` — in that order and
nothing else. Independent of the service oracle, which is never consulted
during this walk. -/
theorem c2_walker_example : ∀ o : Oracle,
    walk_scaffold_dict o ⟨⟨["Output"], []⟩, [], []⟩
      [("src", .arr [.str "main.py", .str "utils.py"]), ("docs", .arr [])] =
      .ok (⟨⟨["Output", "Output/src", "Output/docs"], []⟩, [], []⟩,
        [("src", "main.py"), ("src", "utils.py")]) :=
  fun _ => rfl

/-- Claim **C5.** If the architecture request fails at the gateway (`RequestError`)
or its response is not valid JSON (`ParseError`), `main` prints the
could-not-retrieve message and returns: the filesystem is untouched, no
per-file request is issued, and the only status line is the abort message. -/
theorem c5_architecture_failure_fatal : ∀ (inputs : List String) (o : Oracle) (fs : FS),
    main_run .requestError inputs o fs =
      (.abortedNoArch, ⟨fs, [], [.couldNotRetrieveArchitecture]⟩) ∧
    main_run .parseError inputs o fs =
      (.abortedNoArch, ⟨fs, [], [.couldNotRetrieveArchitecture]⟩) :=
  fun _ _ _ => ⟨rfl, rfl⟩

/-- Claim **C7.** A negative decision at the approval gate ends the run cleanly:
`main` prints the not-approved message and returns with the filesystem
untouched, no per-file request issued, and no exception raised. -/
theorem c7_disapproval_no_writes (kvs : List (String × Json)) (inputs : List String)
    (o : Oracle) (fs : FS) (happr : get_user_approval inputs = some false)
    (htruthy : pyTruthy (.obj kvs) = true) :
    main_run (.parsed (.obj kvs)) inputs o fs = (.disapproved, ⟨fs, [], [.notApproved]⟩) := by
  simp [main_run, ask_chatgpt_for_architecture, htruthy, happr, log]

theorem c7_disapproval_no_writes_witness :
    main_run (.parsed archExample) ["no"] (fun _ _ => none) emptyFS =
      (.disapproved, ⟨emptyFS, [], [.notApproved]⟩) :=
  c7_disapproval_no_writes _ _ _ _ rfl rfl

/-- Claim **C10.** If the architecture response parses as valid JSON but the parsed
value is falsy (for example `{}`, `null`, `0`, `""` or `[]`), `main` aborts
exactly as for a parse failure: it prints the could-not-retrieve message and
returns before any approval prompt, service request or filesystem write. -/
theorem c10_falsy_architecture_aborts (v : Json) (inputs : List String) (o : Oracle)
    (fs : FS) (hfalsy : pyTruthy v = false) :
    main_run (.parsed v) inputs o fs =
      (.abortedNoArch, ⟨fs, [], [.couldNotRetrieveArchitecture]⟩) := by
  simp [main_run, ask_chatgpt_for_architecture, hfalsy, log]

theorem c10_falsy_architecture_aborts_witness :
    main_run (.parsed (.obj [])) ["yes"] (fun _ _ => some "A") emptyFS =
      (.abortedNoArch, ⟨emptyFS, [], [.couldNotRetrieveArchitecture]⟩) :=
  c10_falsy_architecture_aborts _ _ _ _ rfl

/-- Claim **C1, counterexample.** Both runs use the same output root and the same
approved proposal (`archExample`); only the text the generative service
returns for the per-file requests differs between the runs, which the
program does not control. After the first run `Output/src/main.py` exists
with content `"A"` and its containing folder `Output/src` exists; the
second run completes without error but leaves the file with content `"B"`:
the pipeline re-requests and overwrites every file of the generation
sequence instead of skipping existing ones, so the file contents are
not left unchanged. -/
theorem c1_counterexample :
    (main_run (.parsed archExample) ["yes"] (fun _ _ => some "A") emptyFS).1 = .completed ∧
    (main_run (.parsed archExample) ["yes"] (fun _ _ => some "A")
        emptyFS).2.fs.isDir "Output/src" = true ∧
    (main_run (.parsed archExample) ["yes"] (fun _ _ => some "A")
        emptyFS).2.fs.lookup "Output/src/main.py" = some "A" ∧
    (main_run (.parsed archExample) ["yes"] (fun _ _ => some "B")
        (main_run (.parsed archExample) ["yes"] (fun _ _ => some "A") emptyFS).2.fs).1 =
      .completed ∧
    (main_run (.parsed archExample) ["yes"] (fun _ _ => some "B")
        (main_run (.parsed archExample) ["yes"] (fun _ _ => some "A")
          emptyFS).2.fs).2.fs.lookup "Output/src/main.py" = some "B" :=
  ⟨rfl, rfl, rfl, rfl, rfl⟩

/-- Claim **C3, counterexample.** For the flat scaffold input
`["readme.md", "config"]` the dot-in-name rule is never consulted: every
element of a flat sequence is recorded as a File of the root folder, so
`config` — which the claim says is classified as a Folder with no
children — ends up in the generation sequence, has content requested for
it, and is written as the regular file `Output/config`; no directory
`Output/config` is created. -/
theorem c3_counterexample :
    file_list (.arr [.str "readme.md", .str "config"]) =
      [("", "readme.md"), ("", "config")] ∧
    (main_run (.parsed (.obj [("file_scaffolding", .arr [.str "readme.md", .str "config"])]))
        ["yes"] (fun _ _ => some "X") emptyFS).2.fs.isDir "Output/config" = false ∧
    (main_run (.parsed (.obj [("file_scaffolding", .arr [.str "readme.md", .str "config"])]))
        ["yes"] (fun _ _ => some "X") emptyFS).2.fs.lookup "Output/config" = some "X" ∧
    (main_run (.parsed (.obj [("file_scaffolding", .arr [.str "readme.md", .str "config"])]))
        ["yes"] (fun _ _ => some "X") emptyFS).2.calls =
      [("", "readme.md"), ("", "config")] :=
  ⟨rfl, rfl, rfl, rfl⟩

/-- Claim **C4, counterexample.** The input `"y "` does not match `"y"` or
`"yes"` under case-insensitive comparison (lowercasing both sides), yet
the approval gate accepts it and returns `True`: the gate strips
surrounding whitespace before comparing, which the claim omits. -/
theorem c4_counterexample :
    get_user_approval ["y "] = some true ∧
    pyLower "y " ≠ "yes" ∧ pyLower "y " ≠ "y" :=
  ⟨rfl, by decide, by decide⟩

/-- Claim **C8, counterexample.** For the mapping-shaped scaffold
`{"outer": {"inner": "desc"}}` the run creates `Output/inner` directly
under the output root — a sibling of `Output/outer`, not a directory
nested under it: `Output/outer/inner` is never created, contradicting the
claim that inner-mapping keys become folders nested under the path of
the outer folder. -/
theorem c8_counterexample :
    (main_run (.parsed (.obj [("file_scaffolding",
        .obj [("outer", .obj [("inner", .str "desc")])])]))
        ["yes"] (fun _ _ => none) emptyFS).1 = .completed ∧
    (main_run (.parsed (.obj [("file_scaffolding",
        .obj [("outer", .obj [("inner", .str "desc")])])]))
        ["yes"] (fun _ _ => none) emptyFS).2.fs.dirs =
      ["Output", "Output/outer", "Output/inner"] ∧
    (main_run (.parsed (.obj [("file_scaffolding",
        .obj [("outer", .obj [("inner", .str "desc")])])]))
        ["yes"] (fun _ _ => none) emptyFS).2.fs.isDir "Output/outer/inner" = false :=
  ⟨rfl, rfl, rfl⟩

/-- Claim **C9, counterexample.** The Walker performs no deduplication: for the
raw scaffold `{"src": ["a.py", "a.py"]}` the generation sequence it
produces contains the pair `("src", "a.py")` twice. -/
theorem c9_counterexample :
    walk_scaffold_dict (fun _ _ => none) ⟨⟨["Output"], []⟩, [], []⟩
        [("src", .arr [.str "a.py", .str "a.py"])] =
      .ok (⟨⟨["Output", "Output/src"], []⟩, [], []⟩,
        [("src", "a.py"), ("src", "a.py")]) ∧
    ¬ List.Nodup [("src", "a.py"), ("src", "a.py")] :=
  ⟨rfl, by decide⟩

/-- Claim **C4, amended.** The approval gate strips surrounding whitespace and
lowercases the input before comparing: it returns `True` exactly when the
stripped, lowercased input is `yes` or `y`, `False` exactly when it is
`no` or `n`, and for any other input it re-prompts on the remaining
inputs without advancing; it produces a decision only when some input
matches one of the four tokens. -/
theorem c4_amended_strip_lower_match :
    (∀ (i : String) (rest : List String),
      ((pyLower (pyStrip i) = "yes" ∨ pyLower (pyStrip i) = "y") →
        get_user_approval (i :: rest) = some true) ∧
      ((pyLower (pyStrip i) = "no" ∨ pyLower (pyStrip i) = "n") →
        get_user_approval (i :: rest) = some false) ∧
      (pyLower (pyStrip i) ≠ "yes" → pyLower (pyStrip i) ≠ "y" →
        pyLower (pyStrip i) ≠ "no" → pyLower (pyStrip i) ≠ "n" →
        get_user_approval (i :: rest) = get_user_approval rest)) ∧
    (∀ (inputs : List String) (b : Bool), get_user_approval inputs = some b →
      ∃ i ∈ inputs, pyLower (pyStrip i) = "yes" ∨ pyLower (pyStrip i) = "y" ∨
        pyLower (pyStrip i) = "no" ∨ pyLower (pyStrip i) = "n") := by
  constructor
  · intro i rest
    refine ⟨fun h => ?_, fun h => ?_, fun h1 h2 h3 h4 => ?_⟩
    · rcases h with h | h <;> simp [get_user_approval, h]
    · rcases h with h | h <;> simp [get_user_approval, h]
    · simp [get_user_approval, h1, h2, h3, h4]
  · intro inputs
    induction inputs with
    | nil => intro b h; simp [get_user_approval] at h
    | cons i rest ih =>
      intro b h
      by_cases h1 : pyLower (pyStrip i) = "yes"
      · exact ⟨i, by simp, Or.inl h1⟩
      · by_cases h2 : pyLower (pyStrip i) = "y"
        · exact ⟨i, by simp, Or.inr (Or.inl h2)⟩
        · by_cases h3 : pyLower (pyStrip i) = "no"
          · exact ⟨i, by simp, Or.inr (Or.inr (Or.inl h3))⟩
          · by_cases h4 : pyLower (pyStrip i) = "n"
            · exact ⟨i, by simp, Or.inr (Or.inr (Or.inr h4))⟩
            · rw [get_user_approval] at h
              simp [h1, h2, h3, h4] at h
              obtain ⟨j, hj, hm⟩ := ih b h
              exact ⟨j, by simp [hj], hm⟩

theorem c4_amended_strip_lower_match_witness :
    get_user_approval ["YES"] = some true ∧
    get_user_approval ["maybe", " N"] = some false ∧
    (∃ i ∈ ["maybe", " N"], pyLower (pyStrip i) = "yes" ∨ pyLower (pyStrip i) = "y" ∨
      pyLower (pyStrip i) = "no" ∨ pyLower (pyStrip i) = "n") := by
  have hno : get_user_approval ["maybe", " N"] = some false := by
    have h := (c4_amended_strip_lower_match.1 "maybe" [" N"]).2.2
      (by decide) (by decide) (by decide) (by decide)
    rw [h]
    exact (c4_amended_strip_lower_match.1 " N" []).2.1 (Or.inr (by decide))
  refine ⟨(c4_amended_strip_lower_match.1 "YES" []).1 (Or.inl (by decide)), hno, ?_⟩
  exact c4_amended_strip_lower_match.2 ["maybe", " N"] false hno

/-! ### Stepping lemmas for the generation loop -/

theorem strEmpty_eq_false {s : String} (h : s ≠ "") : strEmpty s = false := by
  cases s with
  | mk data =>
    cases data with
    | nil => exact absurd rfl h
    | cons a l => rfl

/-- One step of the generation loop when the service returns truthy
content for the head pair. -/
theorem generate_each_file_cons_ok (o : Oracle) (st : St) (folder filename : String)
    (rest : List (String × String)) (c : String)
    (ho : o folder filename = some c) (hc : c ≠ "") :
    generate_each_file o st ((folder, filename) :: rest) =
      (do
        let st1 ← save_file_to_output o FUEL
          { st with calls := st.calls ++ [(folder, filename)],
                    log := st.log ++ [.requestingFile folder filename] } folder filename c
        generate_each_file o st1 rest) := by
  rw [generate_each_file]
  simp [ask_chatgpt_for_file_content, log, ho, optTruthy, strEmpty_eq_false hc,
    save_file_to_output]

/-- One step of the generation loop when the service request for the head
pair fails (or returns the empty string): the failure is reported and the
loop continues with the remaining pairs. -/
theorem generate_each_file_cons_fail (o : Oracle) (st : St) (folder filename : String)
    (rest : List (String × String)) (ho : o folder filename = none) :
    generate_each_file o st ((folder, filename) :: rest) =
      generate_each_file o
        { st with calls := st.calls ++ [(folder, filename)],
                  log := st.log ++ [.requestingFile folder filename,
                    .failedToRetrieve filename] } rest := by
  rw [generate_each_file]
  simp [ask_chatgpt_for_file_content, log, ho, optTruthy]
  rfl

/-- Claim **C6.** Partial failure is non-fatal: for an approved proposal with the
three-file generation sequence `("src","a.py")`, `("src","b.py")`,
`("src","c.py")`, if the per-file content request fails for the second
file while the first and third succeed (with non-empty content), then all
three files are still attempted (requested in order), the first and third
are written to disk with the returned content, the failure of the second
is only reported, and the run reaches normal completion. -/
theorem c6_partial_failure (o : Oracle) (c1 c3 : String)
    (ho1 : o "src" "a.py" = some c1) (hc1 : c1 ≠ "")
    (ho2 : o "src" "b.py" = none)
    (ho3 : o "src" "c.py" = some c3) (hc3 : c3 ≠ "") :
    main_run (.parsed archThree) ["yes"] o emptyFS =
      (.completed,
        ⟨⟨["Output", "Output/src"],
          [("Output/src/c.py", c3), ("Output/src/a.py", c1)]⟩,
         [("src", "a.py"), ("src", "b.py"), ("src", "c.py")],
         [.approved, .requestingFile "src" "a.py", .savedFile "Output/src/a.py",
          .requestingFile "src" "b.py", .failedToRetrieve "b.py",
          .requestingFile "src" "c.py", .savedFile "Output/src/c.py", .allDone]⟩) := by
  have h0 : main_run (.parsed archThree) ["yes"] o emptyFS =
      (match generate_each_file o ⟨⟨["Output", "Output/src"], []⟩, [], [.approved]⟩
          [("src", "a.py"), ("src", "b.py"), ("src", "c.py")] with
       | .ok st => (.completed, log st .allDone)
       | .error st => (.crashed, st)) := rfl
  have hbind : ∀ (a : St) (f : St → Except St St), (Except.ok a >>= f) = f a :=
    fun _ _ => rfl
  rw [h0, generate_each_file_cons_ok o _ "src" "a.py" _ c1 ho1 hc1]
  simp only [List.cons_append, List.nil_append]
  have hs1 : save_file_to_output o FUEL
      ⟨⟨["Output", "Output/src"], []⟩, [("src", "a.py")],
        [.approved, .requestingFile "src" "a.py"]⟩ "src" "a.py" c1 =
      .ok ⟨⟨["Output", "Output/src"], [("Output/src/a.py", c1)]⟩,
        [("src", "a.py")],
        [.approved, .requestingFile "src" "a.py", .savedFile "Output/src/a.py"]⟩ := rfl
  rw [hs1, hbind]
  rw [generate_each_file_cons_fail o _ "src" "b.py" _ ho2]
  simp only [List.cons_append, List.nil_append]
  rw [generate_each_file_cons_ok o _ "src" "c.py" _ c3 ho3 hc3]
  simp only [List.cons_append, List.nil_append]
  have hs3 : save_file_to_output o FUEL
      ⟨⟨["Output", "Output/src"], [("Output/src/a.py", c1)]⟩,
        [("src", "a.py"), ("src", "b.py"), ("src", "c.py")],
        [.approved, .requestingFile "src" "a.py", .savedFile "Output/src/a.py",
         .requestingFile "src" "b.py", .failedToRetrieve "b.py",
         .requestingFile "src" "c.py"]⟩ "src" "c.py" c3 =
      .ok ⟨⟨["Output", "Output/src"],
          [("Output/src/c.py", c3), ("Output/src/a.py", c1)]⟩,
        [("src", "a.py"), ("src", "b.py"), ("src", "c.py")],
        [.approved, .requestingFile "src" "a.py", .savedFile "Output/src/a.py",
         .requestingFile "src" "b.py", .failedToRetrieve "b.py",
         .requestingFile "src" "c.py", .savedFile "Output/src/c.py"]⟩ := rfl
  rw [hs3, hbind]
  rfl

theorem c6_partial_failure_witness :
    main_run (.parsed archThree) ["yes"]
      (fun _ n => if n == "b.py" then none else some "X") emptyFS =
      (.completed,
        ⟨⟨["Output", "Output/src"],
          [("Output/src/c.py", "X"), ("Output/src/a.py", "X")]⟩,
         [("src", "a.py"), ("src", "b.py"), ("src", "c.py")],
         [.approved, .requestingFile "src" "a.py", .savedFile "Output/src/a.py",
          .requestingFile "src" "b.py", .failedToRetrieve "b.py",
          .requestingFile "src" "c.py", .savedFile "Output/src/c.py", .allDone]⟩) :=
  c6_partial_failure (fun _ n => if n == "b.py" then none else some "X") "X" "X"
    rfl (by decide) rfl rfl (by decide)

/-! ### Path lemmas -/

theorem splitSlash_ne_nil (cs : List Char) : splitSlash cs ≠ [] := by
  cases cs with
  | nil => simp [splitSlash]
  | cons c rest =>
    rw [splitSlash]
    cases h : splitSlash rest with
    | nil => simp
    | cons r rs => by_cases hc : c == '/' <;> simp [hc]

theorem joinSlash_splitSlash (cs : List Char) : joinSlash (splitSlash cs) = cs := by
  induction cs with
  | nil => rfl
  | cons c rest ih =>
    rw [splitSlash]
    cases h : splitSlash rest with
    | nil => exact absurd h (splitSlash_ne_nil rest)
    | cons r rs =>
      rw [h] at ih
      dsimp only
      by_cases hc : c == '/'
      · rw [if_pos hc, joinSlash, List.nil_append, ih]
        have hcc : c = '/' := by simpa using hc
        rw [hcc]
      · rw [if_neg hc]
        cases rs with
        | nil =>
          rw [joinSlash] at ih
          rw [joinSlash, ih]
        | cons r2 rs2 =>
          rw [joinSlash] at ih
          rw [joinSlash, List.cons_append, ih]

/-- A path is one of its own component-wise prefixes (the last one). -/
theorem self_mem_pathPrefixes (p : String) : p ∈ pathPrefixes p := by
  rw [pathPrefixes]
  have hne : splitSlash p.data ≠ [] := splitSlash_ne_nil p.data
  have hlen : 0 < (splitSlash p.data).length := List.length_pos.mpr hne
  refine List.mem_map.mpr ⟨(splitSlash p.data).length - 1, List.mem_range.mpr ?_, ?_⟩
  · omega
  · have : (splitSlash p.data).length - 1 + 1 = (splitSlash p.data).length := by omega
    rw [this, List.take_length, joinSlash_splitSlash]

theorem bind_error_st (x : St) (f : St → Except St St) :
    (Except.error x >>= f : Except St St) = Except.error x := rfl

theorem bind_ok_st (x : St) (f : St → Except St St) :
    (Except.ok x >>= f : Except St St) = f x := rfl

/-- Calling `create_folder_or_file(OUTPUT_PATH, OUTPUT_PATH)` — the inner call
`save_file_to_output` makes — never touches the service: whatever it does
to the filesystem, the request list is unchanged. -/
theorem create_output_output_calls (o : Oracle) (fuel : Nat) (st : St) :
    (resultState (call_step o (fuel + 1) (.create st OUTPUT_PATH OUTPUT_PATH))).calls =
      st.calls := by
  rw [call_step, OUTPUT_PATH]
  have he : strEmpty "Output" = false := rfl
  simp only [he, Bool.false_eq_true, if_false]
  by_cases hex : st.fs.pathExists (osJoin "Output" "Output") = true
  · simp [hex, resultState]
  · simp only [Bool.not_eq_true] at hex
    simp only [hex, Bool.false_eq_true, if_false]
    have hd : strContains "Output" '.' = false := rfl
    simp only [hd, Bool.false_eq_true, if_false]
    cases hmk : makedirs st.fs (osJoin "Output" "Output") <;> simp [resultState]

/-- A `save_file_to_output(folder = OUTPUT_PATH, ...)` call — the one the
dotted branch of `create_folder_or_file` makes — issues no service
request: the request list of its final state is unchanged. -/
theorem save_output_calls (o : Oracle) (fuel : Nat) (st : St) (filename content : String) :
    (resultState (call_step o (fuel + 1 + 1)
      (.save st OUTPUT_PATH filename content))).calls = st.calls := by
  rw [call_step]
  have hA := create_output_output_calls o fuel st
  cases h : call_step o (fuel + 1) (.create st OUTPUT_PATH OUTPUT_PATH) with
  | error st2 =>
    rw [h] at hA
    rw [bind_error_st]
    exact hA
  | ok st2 =>
    rw [h] at hA
    rw [bind_ok_st]
    cases htw : tryWrite st2.fs (osJoin (osJoin OUTPUT_PATH OUTPUT_PATH) filename) content <;>
      simpa [htw, resultState, log] using hA

/-- Claim **C3, amended.** The dot-in-name classification applies exactly to the
entries that pass through `create_folder_or_file` — the output root and
the folder keys of a mapping-shaped scaffold: for a not-yet-existing
target, a name containing `.` is treated as a File (one content request is
issued for it and no service request beyond it), and a dotless name is
treated as a Folder (its directory is created and no content request is
issued). Entries of a flat sequence scaffold bypass the rule entirely:
every element becomes a File of the root folder, so for
`["readme.md", "config"]` the generation sequence is
`[("", "readme.md"), ("", "config")]` — `config` included, despite
containing no dot. -/
theorem c3_amended_dot_rule_scope :
    (∀ (o : Oracle) (st : St) (folder : String),
      st.fs.pathExists (osJoin OUTPUT_PATH folder) = false →
      strEmpty folder = false →
      strContains folder '.' = true →
        (resultState (create_folder_or_file o FUEL st OUTPUT_PATH folder)).calls =
          st.calls ++ [(OUTPUT_PATH, folder)]) ∧
    (∀ (o : Oracle) (st : St) (folder : String) (st' : St),
      st.fs.pathExists (osJoin OUTPUT_PATH folder) = false →
      strEmpty folder = false →
      strContains folder '.' = false →
      create_folder_or_file o FUEL st OUTPUT_PATH folder = .ok st' →
        st'.fs.isDir (osJoin OUTPUT_PATH folder) = true ∧ st'.calls = st.calls) ∧
    file_list (.arr [.str "readme.md", .str "config"]) =
      [("", "readme.md"), ("", "config")] := by
  refine ⟨?_, ?_, rfl⟩
  · intro o st folder hex hne hdot
    rw [create_folder_or_file, FUEL, OUTPUT_PATH] at *
    rw [call_step]
    simp only [hne, Bool.false_eq_true, if_false, hex, hdot, if_true,
      ask_chatgpt_for_file_content]
    by_cases ht : optTruthy (o "Output" folder) = true
    · simp only [ht, if_true]
      have hb := save_output_calls o 5
        ⟨st.fs, st.calls ++ [("Output", folder)], st.log⟩ folder
        ((o "Output" folder).getD "")
      rw [OUTPUT_PATH] at hb
      exact hb
    · simp only [Bool.not_eq_true] at ht
      simp only [ht, Bool.false_eq_true, if_false]
      simp [resultState, log]
  · intro o st folder st' hex hne hdot hok
    rw [create_folder_or_file, FUEL, OUTPUT_PATH] at *
    rw [call_step] at hok
    simp only [hne, Bool.false_eq_true, if_false, hex, hdot] at hok
    cases hmk : makedirs st.fs (osJoin "Output" folder) with
    | none => rw [hmk] at hok; exact absurd hok (by simp)
    | some fs2 =>
      rw [hmk] at hok
      have hst : st' = { st with fs := fs2 } := by
        injection hok with h
        exact h.symm
      subst hst
      refine ⟨?_, rfl⟩
      rw [makedirs] at hmk
      by_cases hbad : ((pathPrefixes (osJoin "Output" folder)).any
          (fun q => st.fs.isFile q) || st.fs.dirs.contains (osJoin "Output" folder)) = true
      · rw [if_pos hbad] at hmk; exact absurd hmk (by simp)
      · rw [if_neg hbad] at hmk
        injection hmk with h
        rw [← h]
        simp only [FS.isDir]
        apply List.elem_eq_true_of_mem
        apply List.mem_append_right
        refine List.mem_filter.mpr ⟨self_mem_pathPrefixes _, ?_⟩
        rw [Bool.or_eq_true] at hbad
        push_neg at hbad
        simp only [Bool.not_eq_true] at hbad
        simpa using hbad.2

theorem c3_amended_dot_rule_scope_witness :
    (resultState (create_folder_or_file (fun _ _ => some "X") FUEL
        ⟨⟨["Output"], []⟩, [], []⟩ OUTPUT_PATH "data.db")).calls =
      ([] : List (String × String)) ++ [(OUTPUT_PATH, "data.db")] ∧
    ((⟨⟨["Output", "Output/src"], []⟩, [], []⟩ : St).fs.isDir
        (osJoin OUTPUT_PATH "src") = true ∧
      (⟨⟨["Output", "Output/src"], []⟩, [], []⟩ : St).calls =
        (⟨⟨["Output"], []⟩, [], []⟩ : St).calls) :=
  ⟨c3_amended_dot_rule_scope.1 (fun _ _ => some "X")
      ⟨⟨["Output"], []⟩, [], []⟩ "data.db" rfl rfl rfl,
   c3_amended_dot_rule_scope.2.1 (fun _ _ => some "X")
      ⟨⟨["Output"], []⟩, [], []⟩ "src" ⟨⟨["Output", "Output/src"], []⟩, [], []⟩
      rfl rfl rfl rfl⟩

/-! ### The generation sequence of the Walker (C9) -/

theorem bind_error_e {α β : Type} (x : St) (f : α → Except St β) :
    ((Except.error x : Except St α) >>= f) = .error x := rfl

theorem bind_ok_e {α β : Type} (x : α) (f : α → Except St β) :
    ((Except.ok x : Except St α) >>= f) = f x := rfl

/-- Every pair the Walker collects carries the folder key of the scaffold
item it came from. -/
theorem walk_scaffold_dict_fst_mem (o : Oracle) (entries : List (String × Json)) :
    ∀ (st st' : St) (fl : List (String × String)),
      walk_scaffold_dict o st entries = .ok (st', fl) →
      ∀ pr ∈ fl, pr.1 ∈ entries.map Prod.fst := by
  induction entries with
  | nil =>
    intro st st' fl h pr hpr
    rw [walk_scaffold_dict] at h
    simp only [Except.ok.injEq, Prod.mk.injEq] at h
    obtain ⟨-, h2⟩ := h
    subst h2
    simp at hpr
  | cons e rest ih =>
    intro st st' fl h pr hpr
    obtain ⟨folder, files⟩ := e
    rw [walk_scaffold_dict] at h
    cases hc : create_folder_or_file o FUEL st OUTPUT_PATH folder with
    | error st1 =>
      rw [hc, bind_error_e] at h
      exact absurd h (by simp)
    | ok st1 =>
      rw [hc, bind_ok_e] at h
      simp only [List.map_cons]
      cases files with
      | arr items =>
        dsimp only at h
        cases ha : asStrings items with
        | none => rw [ha] at h; exact absurd h (by simp)
        | some names =>
          rw [ha] at h
          dsimp only at h
          cases hw : walk_scaffold_dict o st1 rest with
          | error st2 => rw [hw, bind_error_e] at h; exact absurd h (by simp)
          | ok res =>
            rw [hw, bind_ok_e] at h
            simp only [Except.ok.injEq, Prod.mk.injEq] at h
            obtain ⟨-, h2⟩ := h
            subst h2
            rcases List.mem_append.mp hpr with hl | hr
            · obtain ⟨f, -, hf⟩ := List.mem_map.mp hl
              rw [← hf]
              exact List.mem_cons_self _ _
            · exact List.mem_cons_of_mem _ (ih st1 res.1 res.2 (by rw [hw]) pr hr)
      | obj inner =>
        dsimp only at h
        cases hci : create_inner_folders o st1 inner with
        | error st2 => rw [hci, bind_error_e] at h; exact absurd h (by simp)
        | ok st2 =>
          rw [hci, bind_ok_e] at h
          exact List.mem_cons_of_mem _ (ih st2 st' fl h pr hpr)
      | null => exact List.mem_cons_of_mem _ (ih st1 st' fl h pr hpr)
      | bool b => exact List.mem_cons_of_mem _ (ih st1 st' fl h pr hpr)
      | num n => exact List.mem_cons_of_mem _ (ih st1 st' fl h pr hpr)
      | str s => exact List.mem_cons_of_mem _ (ih st1 st' fl h pr hpr)

/-- Claim **C9, amended.** The generation sequence contains each
`(folder, filename)` pair at most once *provided the raw scaffold repeats
nothing*: for a mapping-shaped scaffold whose folder keys are distinct
(as the keys of a parsed JSON object are) and whose per-folder file lists
contain no duplicate names after trailing-slash stripping, the sequence
the Walker returns has no duplicate pair; likewise, a flat scaffold with
no duplicate stripped names yields a duplicate-free sequence. The code
performs no deduplication of its own, so a scaffold that repeats a name
(see the counterexample) yields a repeated pair. -/
theorem c9_amended_nodup_needs_distinct_input :
    (∀ (o : Oracle) (st : St) (entries : List (String × Json)) (st' : St)
        (fl : List (String × String)),
      walk_scaffold_dict o st entries = .ok (st', fl) →
      (entries.map Prod.fst).Nodup →
      (∀ folder items names, (folder, Json.arr items) ∈ entries →
        asStrings items = some names → (names.map rstripSlash).Nodup) →
      fl.Nodup) ∧
    (∀ names : List String, (names.map rstripSlash).Nodup →
      (names.map (fun f => ("", rstripSlash f))).Nodup) := by
  constructor
  · intro o st entries
    induction entries generalizing st with
    | nil =>
      intro st' fl h _ _
      rw [walk_scaffold_dict] at h
      simp only [Except.ok.injEq, Prod.mk.injEq] at h
      obtain ⟨-, h2⟩ := h
      subst h2
      exact List.nodup_nil
    | cons e rest ih =>
      intro st' fl h hkeys hlists
      obtain ⟨folder, files⟩ := e
      rw [walk_scaffold_dict] at h
      simp only [List.map_cons, List.nodup_cons] at hkeys
      cases hc : create_folder_or_file o FUEL st OUTPUT_PATH folder with
      | error st1 =>
        rw [hc, bind_error_e] at h
        exact absurd h (by simp)
      | ok st1 =>
        rw [hc, bind_ok_e] at h
        have hrest : ∀ folder items names, (folder, Json.arr items) ∈ rest →
            asStrings items = some names → (names.map rstripSlash).Nodup :=
          fun f its ns hm => hlists f its ns (List.mem_cons_of_mem _ hm)
        cases files with
        | arr items =>
          dsimp only at h
          cases ha : asStrings items with
          | none => rw [ha] at h; exact absurd h (by simp)
          | some names =>
            rw [ha] at h
            dsimp only at h
            cases hw : walk_scaffold_dict o st1 rest with
            | error st2 => rw [hw, bind_error_e] at h; exact absurd h (by simp)
            | ok res =>
              rw [hw, bind_ok_e] at h
              simp only [Except.ok.injEq, Prod.mk.injEq] at h
              obtain ⟨-, h2⟩ := h
              subst h2
              have hpairs : (names.map (fun f => (folder, rstripSlash f))).Nodup := by
                have hinj : Function.Injective (fun g : String => (folder, g)) := by
                  intro a b hab
                  simpa using hab
                have := (hlists folder items names (List.mem_cons_self _ _) ha).map hinj
                simpa [List.map_map, Function.comp] using this
              have htl : res.2.Nodup := ih st1 res.1 res.2 (by rw [hw]) hkeys.2 hrest
              refine hpairs.append htl ?_
              intro pr hpl hpr
              have h1 : pr.1 = folder := by
                obtain ⟨f, -, hf⟩ := List.mem_map.mp hpl
                rw [← hf]
              have h2 : pr.1 ∈ rest.map Prod.fst :=
                walk_scaffold_dict_fst_mem o rest st1 res.1 res.2 (by rw [hw]) pr hpr
              rw [h1] at h2
              exact hkeys.1 h2
        | obj inner =>
          dsimp only at h
          cases hci : create_inner_folders o st1 inner with
          | error st2 => rw [hci, bind_error_e] at h; exact absurd h (by simp)
          | ok st2 =>
            rw [hci, bind_ok_e] at h
            exact ih st2 st' fl h hkeys.2 hrest
        | null => exact ih st1 st' fl h hkeys.2 hrest
        | bool b => exact ih st1 st' fl h hkeys.2 hrest
        | num n => exact ih st1 st' fl h hkeys.2 hrest
        | str s => exact ih st1 st' fl h hkeys.2 hrest
  · intro names hnd
    have hinj : Function.Injective (fun g : String => (("" : String), g)) := by
      intro a b hab
      simpa using hab
    simpa [List.map_map, Function.comp] using hnd.map hinj

theorem c9_amended_nodup_needs_distinct_input_witness :
    List.Nodup [("src", "a.py"), ("src", "b.py"), ("docs", "c.md")] ∧
    List.Nodup [(("" : String), "readme.md"), ("", "config")] := by
  constructor
  · refine c9_amended_nodup_needs_distinct_input.1 (fun _ _ => none)
      ⟨⟨["Output"], []⟩, [], []⟩
      [("src", .arr [.str "a.py", .str "b.py"]), ("docs", .arr [.str "c.md"])]
      ⟨⟨["Output", "Output/src", "Output/docs"], []⟩, [], []⟩
      [("src", "a.py"), ("src", "b.py"), ("docs", "c.md")] rfl (by decide) ?_
    intro folder items names hm ha
    simp only [List.mem_cons, List.not_mem_nil, or_false, Prod.mk.injEq,
      Json.arr.injEq] at hm
    rcases hm with ⟨rfl, rfl⟩ | ⟨rfl, rfl⟩ <;> simp [asStrings] at ha <;>
      subst ha <;> decide
  · exact c9_amended_nodup_needs_distinct_input.2 ["readme.md", "config"] (by decide)

/-! ### Second runs with identical service responses (C1) -/

theorem optTruthy_some {x : Option String} (h : optTruthy x = true) :
    ∃ c, x = some c ∧ c ≠ "" := by
  cases x with
  | none => simp [optTruthy] at h
  | some s =>
    refine ⟨s, rfl, ?_⟩
    intro hs
    subst hs
    simp [optTruthy, strEmpty] at h

/-- One step of the generation loop when the service response for the head
pair is falsy (`None` or the empty string). -/
theorem generate_each_file_cons_notruthy (o : Oracle) (st : St) (folder filename : String)
    (rest : List (String × String)) (ho : optTruthy (o folder filename) = false) :
    generate_each_file o st ((folder, filename) :: rest) =
      generate_each_file o
        { st with calls := st.calls ++ [(folder, filename)],
                  log := st.log ++ [.requestingFile folder filename,
                    .failedToRetrieve filename] } rest := by
  rw [generate_each_file]
  simp [ask_chatgpt_for_file_content, log, ho]
  rfl

/-- Running `main()` on the example proposal, starting from an empty output root:
after approval the walker creates the three directories and hands the
two-pair sequence to the generation loop. -/
theorem main_run_example_start (o : Oracle) :
    main_run (.parsed archExample) ["yes"] o emptyFS =
      (match generate_each_file o
          ⟨⟨["Output", "Output/src", "Output/docs"], []⟩, [], [.approved]⟩
          [("src", "main.py"), ("src", "utils.py")] with
       | .ok st => (.completed, log st .allDone)
       | .error st => (.crashed, st)) := rfl

/-- Running `main()` on the example proposal when the three directories already
exist (any set of files may be present): every directory creation is
skipped and the same two-pair sequence reaches the generation loop. -/
theorem main_run_example_dirs (o : Oracle) (files : List (String × String)) :
    main_run (.parsed archExample) ["yes"] o
        ⟨["Output", "Output/src", "Output/docs"], files⟩ =
      (match generate_each_file o
          ⟨⟨["Output", "Output/src", "Output/docs"], files⟩, [], [.approved]⟩
          [("src", "main.py"), ("src", "utils.py")] with
       | .ok st => (.completed, log st .allDone)
       | .error st => (.crashed, st)) := rfl

/-- The generation loop on the example sequence when both requests return
non-empty content: both files are (re)written. -/
theorem gen_example_both (o : Oracle) (files cs : List (String × String)) (lg : List Msg)
    (c1 c2 : String)
    (h1 : o "src" "main.py" = some c1) (hc1 : c1 ≠ "")
    (h2 : o "src" "utils.py" = some c2) (hc2 : c2 ≠ "") :
    generate_each_file o ⟨⟨["Output", "Output/src", "Output/docs"], files⟩, cs, lg⟩
        [("src", "main.py"), ("src", "utils.py")] =
      .ok ⟨⟨["Output", "Output/src", "Output/docs"],
          ("Output/src/utils.py", c2) ::
            (("Output/src/main.py", c1) ::
              files.filter (fun e => e.1 != "Output/src/main.py")).filter
                (fun e => e.1 != "Output/src/utils.py")⟩,
        cs ++ [("src", "main.py"), ("src", "utils.py")],
        lg ++ [.requestingFile "src" "main.py", .savedFile "Output/src/main.py",
          .requestingFile "src" "utils.py", .savedFile "Output/src/utils.py"]⟩ := by
  rw [generate_each_file_cons_ok o _ "src" "main.py" _ c1 h1 hc1]
  dsimp only
  have hs1 : save_file_to_output o FUEL
      ⟨⟨["Output", "Output/src", "Output/docs"], files⟩,
        cs ++ [("src", "main.py")], lg ++ [.requestingFile "src" "main.py"]⟩
      "src" "main.py" c1 =
      .ok ⟨⟨["Output", "Output/src", "Output/docs"],
          ("Output/src/main.py", c1) ::
            files.filter (fun e => e.1 != "Output/src/main.py")⟩,
        cs ++ [("src", "main.py")],
        (lg ++ [.requestingFile "src" "main.py"]) ++
          [.savedFile "Output/src/main.py"]⟩ := rfl
  rw [hs1, bind_ok_st]
  rw [generate_each_file_cons_ok o _ "src" "utils.py" _ c2 h2 hc2]
  dsimp only
  have hs2 : save_file_to_output o FUEL
      ⟨⟨["Output", "Output/src", "Output/docs"],
          ("Output/src/main.py", c1) ::
            files.filter (fun e => e.1 != "Output/src/main.py")⟩,
        (cs ++ [("src", "main.py")]) ++ [("src", "utils.py")],
        ((lg ++ [.requestingFile "src" "main.py"]) ++
          [.savedFile "Output/src/main.py"]) ++ [.requestingFile "src" "utils.py"]⟩
      "src" "utils.py" c2 =
      .ok ⟨⟨["Output", "Output/src", "Output/docs"],
          ("Output/src/utils.py", c2) ::
            (("Output/src/main.py", c1) ::
              files.filter (fun e => e.1 != "Output/src/main.py")).filter
                (fun e => e.1 != "Output/src/utils.py")⟩,
        (cs ++ [("src", "main.py")]) ++ [("src", "utils.py")],
        (((lg ++ [.requestingFile "src" "main.py"]) ++
          [.savedFile "Output/src/main.py"]) ++ [.requestingFile "src" "utils.py"]) ++
          [.savedFile "Output/src/utils.py"]⟩ := rfl
  rw [hs2, bind_ok_st, generate_each_file]
  simp [List.append_assoc]

/-- The generation loop on the example sequence when only the first
request returns non-empty content. -/
theorem gen_example_first (o : Oracle) (files cs : List (String × String)) (lg : List Msg)
    (c1 : String) (h1 : o "src" "main.py" = some c1) (hc1 : c1 ≠ "")
    (h2 : optTruthy (o "src" "utils.py") = false) :
    generate_each_file o ⟨⟨["Output", "Output/src", "Output/docs"], files⟩, cs, lg⟩
        [("src", "main.py"), ("src", "utils.py")] =
      .ok ⟨⟨["Output", "Output/src", "Output/docs"],
          ("Output/src/main.py", c1) ::
            files.filter (fun e => e.1 != "Output/src/main.py")⟩,
        cs ++ [("src", "main.py"), ("src", "utils.py")],
        lg ++ [.requestingFile "src" "main.py", .savedFile "Output/src/main.py",
          .requestingFile "src" "utils.py", .failedToRetrieve "utils.py"]⟩ := by
  rw [generate_each_file_cons_ok o _ "src" "main.py" _ c1 h1 hc1]
  dsimp only
  have hs1 : save_file_to_output o FUEL
      ⟨⟨["Output", "Output/src", "Output/docs"], files⟩,
        cs ++ [("src", "main.py")], lg ++ [.requestingFile "src" "main.py"]⟩
      "src" "main.py" c1 =
      .ok ⟨⟨["Output", "Output/src", "Output/docs"],
          ("Output/src/main.py", c1) ::
            files.filter (fun e => e.1 != "Output/src/main.py")⟩,
        cs ++ [("src", "main.py")],
        (lg ++ [.requestingFile "src" "main.py"]) ++
          [.savedFile "Output/src/main.py"]⟩ := rfl
  rw [hs1, bind_ok_st]
  rw [generate_each_file_cons_notruthy o _ "src" "utils.py" _ h2]
  dsimp only
  rw [generate_each_file]
  simp [List.append_assoc]

/-- The generation loop on the example sequence when only the second
request returns non-empty content. -/
theorem gen_example_second (o : Oracle) (files cs : List (String × String)) (lg : List Msg)
    (c2 : String) (h1 : optTruthy (o "src" "main.py") = false)
    (h2 : o "src" "utils.py" = some c2) (hc2 : c2 ≠ "") :
    generate_each_file o ⟨⟨["Output", "Output/src", "Output/docs"], files⟩, cs, lg⟩
        [("src", "main.py"), ("src", "utils.py")] =
      .ok ⟨⟨["Output", "Output/src", "Output/docs"],
          ("Output/src/utils.py", c2) ::
            files.filter (fun e => e.1 != "Output/src/utils.py")⟩,
        cs ++ [("src", "main.py"), ("src", "utils.py")],
        lg ++ [.requestingFile "src" "main.py", .failedToRetrieve "main.py",
          .requestingFile "src" "utils.py", .savedFile "Output/src/utils.py"]⟩ := by
  rw [generate_each_file_cons_notruthy o _ "src" "main.py" _ h1]
  dsimp only
  rw [generate_each_file_cons_ok o _ "src" "utils.py" _ c2 h2 hc2]
  dsimp only
  have hs2 : save_file_to_output o FUEL
      ⟨⟨["Output", "Output/src", "Output/docs"], files⟩,
        (cs ++ [("src", "main.py")]) ++ [("src", "utils.py")],
        ((lg ++ [.requestingFile "src" "main.py", .failedToRetrieve "main.py"]) ++
          [.requestingFile "src" "utils.py"])⟩
      "src" "utils.py" c2 =
      .ok ⟨⟨["Output", "Output/src", "Output/docs"],
          ("Output/src/utils.py", c2) ::
            files.filter (fun e => e.1 != "Output/src/utils.py")⟩,
        (cs ++ [("src", "main.py")]) ++ [("src", "utils.py")],
        ((lg ++ [.requestingFile "src" "main.py", .failedToRetrieve "main.py"]) ++
          [.requestingFile "src" "utils.py"]) ++
          [.savedFile "Output/src/utils.py"]⟩ := rfl
  rw [hs2, bind_ok_st, generate_each_file]
  simp [List.append_assoc]

/-- The generation loop on the example sequence when both requests fail:
nothing is written. -/
theorem gen_example_neither (o : Oracle) (files cs : List (String × String)) (lg : List Msg)
    (h1 : optTruthy (o "src" "main.py") = false)
    (h2 : optTruthy (o "src" "utils.py") = false) :
    generate_each_file o ⟨⟨["Output", "Output/src", "Output/docs"], files⟩, cs, lg⟩
        [("src", "main.py"), ("src", "utils.py")] =
      .ok ⟨⟨["Output", "Output/src", "Output/docs"], files⟩,
        cs ++ [("src", "main.py"), ("src", "utils.py")],
        lg ++ [.requestingFile "src" "main.py", .failedToRetrieve "main.py",
          .requestingFile "src" "utils.py", .failedToRetrieve "utils.py"]⟩ := by
  rw [generate_each_file_cons_notruthy o _ "src" "main.py" _ h1]
  dsimp only
  rw [generate_each_file_cons_notruthy o _ "src" "utils.py" _ h2]
  dsimp only
  rw [generate_each_file]
  simp [List.append_assoc]

/-- Claim **C1, amended.** Running the pipeline a second time against the same
output root with the same approved proposal raises no error, and — beyond
what the claim stated — files are not skipped but regenerated: each file
of the generation sequence is overwritten with whatever the service
returns on the second run, so contents are unchanged exactly when the
service responds as it did before. Verified for the example
scaffold with an arbitrary but fixed response function: both runs
complete, and the second run leaves the entire filesystem (directories
and file contents) equal to the state after the first run. -/
theorem c1_amended_idempotent_with_same_responses (o : Oracle) :
    (main_run (.parsed archExample) ["yes"] o emptyFS).1 = .completed ∧
    (main_run (.parsed archExample) ["yes"] o
      (main_run (.parsed archExample) ["yes"] o emptyFS).2.fs).1 = .completed ∧
    (main_run (.parsed archExample) ["yes"] o
      (main_run (.parsed archExample) ["yes"] o emptyFS).2.fs).2.fs =
      (main_run (.parsed archExample) ["yes"] o emptyFS).2.fs := by
  cases ht1 : optTruthy (o "src" "main.py") with
  | true =>
    obtain ⟨c1, ho1, hc1⟩ := optTruthy_some ht1
    cases ht2 : optTruthy (o "src" "utils.py") with
    | true =>
      obtain ⟨c2, ho2, hc2⟩ := optTruthy_some ht2
      have hr1 : main_run (.parsed archExample) ["yes"] o emptyFS =
          (.completed, ⟨⟨["Output", "Output/src", "Output/docs"],
            [("Output/src/utils.py", c2), ("Output/src/main.py", c1)]⟩,
            [("src", "main.py"), ("src", "utils.py")],
            [.approved, .requestingFile "src" "main.py", .savedFile "Output/src/main.py",
             .requestingFile "src" "utils.py", .savedFile "Output/src/utils.py",
             .allDone]⟩) := by
        rw [main_run_example_start,
          gen_example_both o [] [] [.approved] c1 c2 ho1 hc1 ho2 hc2]
        rfl
      have hr2 : main_run (.parsed archExample) ["yes"] o
          ⟨["Output", "Output/src", "Output/docs"],
            [("Output/src/utils.py", c2), ("Output/src/main.py", c1)]⟩ =
          (.completed, ⟨⟨["Output", "Output/src", "Output/docs"],
            [("Output/src/utils.py", c2), ("Output/src/main.py", c1)]⟩,
            [("src", "main.py"), ("src", "utils.py")],
            [.approved, .requestingFile "src" "main.py", .savedFile "Output/src/main.py",
             .requestingFile "src" "utils.py", .savedFile "Output/src/utils.py",
             .allDone]⟩) := by
        rw [main_run_example_dirs o
            [("Output/src/utils.py", c2), ("Output/src/main.py", c1)],
          gen_example_both o
            [("Output/src/utils.py", c2), ("Output/src/main.py", c1)] [] [.approved]
            c1 c2 ho1 hc1 ho2 hc2]
        rfl
      rw [hr1]
      dsimp only
      rw [hr2]
      exact ⟨rfl, rfl, rfl⟩
    | false =>
      have hr1 : main_run (.parsed archExample) ["yes"] o emptyFS =
          (.completed, ⟨⟨["Output", "Output/src", "Output/docs"],
            [("Output/src/main.py", c1)]⟩,
            [("src", "main.py"), ("src", "utils.py")],
            [.approved, .requestingFile "src" "main.py", .savedFile "Output/src/main.py",
             .requestingFile "src" "utils.py", .failedToRetrieve "utils.py",
             .allDone]⟩) := by
        rw [main_run_example_start,
          gen_example_first o [] [] [.approved] c1 ho1 hc1 ht2]
        rfl
      have hr2 : main_run (.parsed archExample) ["yes"] o
          ⟨["Output", "Output/src", "Output/docs"], [("Output/src/main.py", c1)]⟩ =
          (.completed, ⟨⟨["Output", "Output/src", "Output/docs"],
            [("Output/src/main.py", c1)]⟩,
            [("src", "main.py"), ("src", "utils.py")],
            [.approved, .requestingFile "src" "main.py", .savedFile "Output/src/main.py",
             .requestingFile "src" "utils.py", .failedToRetrieve "utils.py",
             .allDone]⟩) := by
        rw [main_run_example_dirs o [("Output/src/main.py", c1)],
          gen_example_first o [("Output/src/main.py", c1)] [] [.approved] c1 ho1 hc1 ht2]
        rfl
      rw [hr1]
      dsimp only
      rw [hr2]
      exact ⟨rfl, rfl, rfl⟩
  | false =>
    cases ht2 : optTruthy (o "src" "utils.py") with
    | true =>
      obtain ⟨c2, ho2, hc2⟩ := optTruthy_some ht2
      have hr1 : main_run (.parsed archExample) ["yes"] o emptyFS =
          (.completed, ⟨⟨["Output", "Output/src", "Output/docs"],
            [("Output/src/utils.py", c2)]⟩,
            [("src", "main.py"), ("src", "utils.py")],
            [.approved, .requestingFile "src" "main.py", .failedToRetrieve "main.py",
             .requestingFile "src" "utils.py", .savedFile "Output/src/utils.py",
             .allDone]⟩) := by
        rw [main_run_example_start,
          gen_example_second o [] [] [.approved] c2 ht1 ho2 hc2]
        rfl
      have hr2 : main_run (.parsed archExample) ["yes"] o
          ⟨["Output", "Output/src", "Output/docs"], [("Output/src/utils.py", c2)]⟩ =
          (.completed, ⟨⟨["Output", "Output/src", "Output/docs"],
            [("Output/src/utils.py", c2)]⟩,
            [("src", "main.py"), ("src", "utils.py")],
            [.approved, .requestingFile "src" "main.py", .failedToRetrieve "main.py",
             .requestingFile "src" "utils.py", .savedFile "Output/src/utils.py",
             .allDone]⟩) := by
        rw [main_run_example_dirs o [("Output/src/utils.py", c2)],
          gen_example_second o [("Output/src/utils.py", c2)] [] [.approved] c2 ht1 ho2 hc2]
        rfl
      rw [hr1]
      dsimp only
      rw [hr2]
      exact ⟨rfl, rfl, rfl⟩
    | false =>
      have hr1 : main_run (.parsed archExample) ["yes"] o emptyFS =
          (.completed, ⟨⟨["Output", "Output/src", "Output/docs"], []⟩,
            [("src", "main.py"), ("src", "utils.py")],
            [.approved, .requestingFile "src" "main.py", .failedToRetrieve "main.py",
             .requestingFile "src" "utils.py", .failedToRetrieve "utils.py",
             .allDone]⟩) := by
        rw [main_run_example_start,
          gen_example_neither o [] [] [.approved] ht1 ht2]
        rfl
      have hr2 : main_run (.parsed archExample) ["yes"] o
          ⟨["Output", "Output/src", "Output/docs"], []⟩ =
          (.completed, ⟨⟨["Output", "Output/src", "Output/docs"], []⟩,
            [("src", "main.py"), ("src", "utils.py")],
            [.approved, .requestingFile "src" "main.py", .failedToRetrieve "main.py",
             .requestingFile "src" "utils.py", .failedToRetrieve "utils.py",
             .allDone]⟩) := by
        rw [main_run_example_dirs o [],
          gen_example_neither o [] [] [.approved] ht1 ht2]
        rfl
      rw [hr1]
      dsimp only
      rw [hr2]
      exact ⟨rfl, rfl, rfl⟩

/-- Claim **C8, amended.** For a mapping-shaped scaffold whose value for a
folder key is itself a mapping, the inner mapping contributes nothing to
the generation sequence, and each of its keys is passed to
`create_folder_or_file` with the output root — not the path of the outer
folder — as base. A dotless, not-yet-existing inner key becomes a
directory created directly under the output root: the call makes
`Output/<key>` a directory, issues no service request, and every
directory it adds is a component-prefix of `Output/<key>`, independent of
the outer key — so nothing is created under the outer folder. A dotted
inner key instead takes the File branch: one content request is issued
for it. Concretely, `{"outer": {"alpha": "x", "beta": null}}` creates
exactly `Output`, `Output/outer`, `Output/alpha`, `Output/beta` (neither
`Output/outer/alpha` nor `Output/outer/beta`) and generates no files,
while the dotted inner key of `{"outer": {"util.py": "x"}}` triggers a
content request and a file write at `Output/Output/util.py`, with no
directory `Output/util.py` or `Output/outer/util.py` ever created. -/
theorem c8_amended_inner_keys_at_root :
    (∀ (o : Oracle) (st : St) (outer : String) (inner rest : List (String × Json)),
      walk_scaffold_dict o st ((outer, Json.obj inner) :: rest) =
        (do
          let st1 ← create_folder_or_file o FUEL st OUTPUT_PATH outer
          let st2 ← create_inner_folders o st1 inner
          walk_scaffold_dict o st2 rest)) ∧
    (∀ (o : Oracle) (st : St) (key : String) (v : Json) (rest : List (String × Json)),
      create_inner_folders o st ((key, v) :: rest) =
        (do
          let st1 ← create_folder_or_file o FUEL st OUTPUT_PATH key
          create_inner_folders o st1 rest)) ∧
    (∀ (o : Oracle) (st : St) (key : String) (st' : St),
      st.fs.pathExists (osJoin OUTPUT_PATH key) = false →
      strEmpty key = false →
      strContains key '.' = false →
      create_folder_or_file o FUEL st OUTPUT_PATH key = .ok st' →
        st'.fs.isDir (osJoin OUTPUT_PATH key) = true ∧
        st'.calls = st.calls ∧
        (∀ d, st'.fs.isDir d = true →
          st.fs.isDir d = true ∨ d ∈ pathPrefixes (osJoin OUTPUT_PATH key))) ∧
    (∀ (o : Oracle) (st : St) (key : String),
      st.fs.pathExists (osJoin OUTPUT_PATH key) = false →
      strEmpty key = false →
      strContains key '.' = true →
        (resultState (create_folder_or_file o FUEL st OUTPUT_PATH key)).calls =
          st.calls ++ [(OUTPUT_PATH, key)]) ∧
    ((main_run (.parsed (.obj [("file_scaffolding",
        .obj [("outer", .obj [("alpha", .str "x"), ("beta", .null)])])]))
        ["yes"] (fun _ _ => none) emptyFS).1 = .completed ∧
     (main_run (.parsed (.obj [("file_scaffolding",
        .obj [("outer", .obj [("alpha", .str "x"), ("beta", .null)])])]))
        ["yes"] (fun _ _ => none) emptyFS).2.fs.dirs =
       ["Output", "Output/outer", "Output/alpha", "Output/beta"] ∧
     (main_run (.parsed (.obj [("file_scaffolding",
        .obj [("outer", .obj [("alpha", .str "x"), ("beta", .null)])])]))
        ["yes"] (fun _ _ => none) emptyFS).2.fs.isDir "Output/outer/alpha" = false ∧
     (main_run (.parsed (.obj [("file_scaffolding",
        .obj [("outer", .obj [("alpha", .str "x"), ("beta", .null)])])]))
        ["yes"] (fun _ _ => none) emptyFS).2.fs.isDir "Output/outer/beta" = false ∧
     file_list (.obj [("outer", .obj [("alpha", .str "x"), ("beta", .null)])]) = [] ∧
     (main_run (.parsed (.obj [("file_scaffolding",
        .obj [("outer", .obj [("util.py", .str "x")])])]))
        ["yes"] (fun _ _ => some "X") emptyFS).1 = .completed ∧
     (main_run (.parsed (.obj [("file_scaffolding",
        .obj [("outer", .obj [("util.py", .str "x")])])]))
        ["yes"] (fun _ _ => some "X") emptyFS).2.calls = [("Output", "util.py")] ∧
     (main_run (.parsed (.obj [("file_scaffolding",
        .obj [("outer", .obj [("util.py", .str "x")])])]))
        ["yes"] (fun _ _ => some "X") emptyFS).2.fs.lookup "Output/Output/util.py" =
       some "X" ∧
     (main_run (.parsed (.obj [("file_scaffolding",
        .obj [("outer", .obj [("util.py", .str "x")])])]))
        ["yes"] (fun _ _ => some "X") emptyFS).2.fs.isDir "Output/util.py" = false ∧
     (main_run (.parsed (.obj [("file_scaffolding",
        .obj [("outer", .obj [("util.py", .str "x")])])]))
        ["yes"] (fun _ _ => some "X") emptyFS).2.fs.isDir "Output/outer/util.py" = false ∧
     file_list (.obj [("outer", .obj [("util.py", .str "x")])]) = []) := by
  refine ⟨fun o st outer inner rest => rfl, fun o st key v rest => rfl, ?_, ?_,
    rfl, rfl, rfl, rfl, rfl, rfl, rfl, rfl, rfl, rfl, rfl⟩
  · intro o st key st' hex hne hdot hok
    rw [create_folder_or_file, FUEL, OUTPUT_PATH] at *
    rw [call_step] at hok
    simp only [hne, Bool.false_eq_true, if_false, hex, hdot] at hok
    cases hmk : makedirs st.fs (osJoin "Output" key) with
    | none => rw [hmk] at hok; exact absurd hok (by simp)
    | some fs2 =>
      rw [hmk] at hok
      have hst : st' = { st with fs := fs2 } := by
        injection hok with h
        exact h.symm
      subst hst
      rw [makedirs] at hmk
      by_cases hbad : ((pathPrefixes (osJoin "Output" key)).any
          (fun q => st.fs.isFile q) || st.fs.dirs.contains (osJoin "Output" key)) = true
      · rw [if_pos hbad] at hmk; exact absurd hmk (by simp)
      · rw [if_neg hbad] at hmk
        injection hmk with h
        refine ⟨?_, rfl, ?_⟩
        · rw [← h]
          simp only [FS.isDir]
          apply List.elem_eq_true_of_mem
          apply List.mem_append_right
          refine List.mem_filter.mpr ⟨self_mem_pathPrefixes _, ?_⟩
          rw [Bool.or_eq_true] at hbad
          push_neg at hbad
          simp only [Bool.not_eq_true] at hbad
          simpa using hbad.2
        · intro d hd
          rw [← h] at hd
          simp only [FS.isDir] at hd ⊢
          rcases List.mem_append.mp (List.mem_of_elem_eq_true hd) with hl | hr
          · exact Or.inl (List.elem_eq_true_of_mem hl)
          · exact Or.inr (List.mem_filter.mp hr).1
  · intro o st key hex hne hdot
    rw [create_folder_or_file, FUEL, OUTPUT_PATH] at *
    rw [call_step]
    simp only [hne, Bool.false_eq_true, if_false, hex, hdot, if_true,
      ask_chatgpt_for_file_content]
    by_cases ht : optTruthy (o "Output" key) = true
    · simp only [ht, if_true]
      have hb := save_output_calls o 5
        ⟨st.fs, st.calls ++ [("Output", key)], st.log⟩ key
        ((o "Output" key).getD "")
      rw [OUTPUT_PATH] at hb
      exact hb
    · simp only [Bool.not_eq_true] at ht
      simp only [ht, Bool.false_eq_true, if_false]
      simp [resultState, log]

theorem c8_amended_inner_keys_at_root_witness :
    ((⟨⟨["Output", "Output/cfg"], []⟩, [], []⟩ : St).fs.isDir
        (osJoin OUTPUT_PATH "cfg") = true ∧
      (⟨⟨["Output", "Output/cfg"], []⟩, [], []⟩ : St).calls =
        (⟨⟨["Output"], []⟩, [], []⟩ : St).calls ∧
      (∀ d, (⟨⟨["Output", "Output/cfg"], []⟩, [], []⟩ : St).fs.isDir d = true →
        (⟨⟨["Output"], []⟩, [], []⟩ : St).fs.isDir d = true ∨
          d ∈ pathPrefixes (osJoin OUTPUT_PATH "cfg"))) ∧
    (resultState (create_folder_or_file (fun _ _ => some "X") FUEL
        ⟨⟨["Output"], []⟩, [], []⟩ OUTPUT_PATH "report.md")).calls =
      ([] : List (String × String)) ++ [(OUTPUT_PATH, "report.md")] :=
  ⟨c8_amended_inner_keys_at_root.2.2.1 (fun _ _ => some "X")
      ⟨⟨["Output"], []⟩, [], []⟩ "cfg" ⟨⟨["Output", "Output/cfg"], []⟩, [], []⟩
      rfl rfl rfl rfl,
   c8_amended_inner_keys_at_root.2.2.2.1 (fun _ _ => some "X")
      ⟨⟨["Output"], []⟩, [], []⟩ "report.md" rfl rfl rfl⟩

end NewAiAgent
